import Mathlib

/-!
Shallow embedding of the core logic of `src/app.py` (a Streamlit browsing
interface over the Rick & Morty REST catalog).  The embedded pieces are:

* `api_get` (src/app.py lines 37-45): the generic cached GET; Python
  exceptions are modelled as `Except.error` (a raised exception that
  propagates), returned values as `Except.ok`.
* the `st.cache_data` memoization wrapping `api_get`
  (`@st.cache_data(ttl=300, max_entries=50)`, line 37): modelled as
  `cached_api_get` over an explicit entry list keyed by the argument
  signature; a call that returns a value is stored, a call that raises is
  not stored (streamlit does not cache raising calls).
* `extract_id_from_url` (lines 90-96): the regex search for a trailing
  `/digits` with at most one optional trailing slash; `\d` is modelled as
  the ASCII digits the catalog URLs use.
* `fetch_multiple` (lines 47-70): id extraction, truncation to `limit`,
  endpoint dispatch on the first URL, the bulk request and the
  single-object-vs-list normalization.  The network is an explicit oracle
  `net : String -> UpstreamOutcome`, and the returned pair records which
  bulk URLs were actually requested.
* the per-view query building and filter callbacks
  (lines 108-110, 254-274, 310-323, 347-363): `SessionState`, the widget
  mutation functions, and `char_params` / `ep_params` / `loc_params`.
* the response handling of the three list views
  (lines 277-304, 325-344, 365-383): `char_list_step`, `ep_list_step`,
  `loc_list_step` return the page cursor after the response is processed
  together with whether a rerun (re-request) is triggered.
* `pager_controls` (lines 112-132): the prev/next button transitions
  `pager_prev` / `pager_next`, guarded by the `disabled` conditions of the
  buttons.
-/

/-- A JSON value, as returned by the upstream catalog. -/
inductive Json where
  | null : Json
  | bool : Bool → Json
  | num : Int → Json
  | str : String → Json
  | arr : List Json → Json
  | obj : List (String × Json) → Json

/-- A request parameter value: the `params` dicts in `src/app.py` hold the
integer page number and string filter values. -/
inductive PVal where
  | num : Int → PVal
  | str : String → PVal
deriving DecidableEq

/-- The outcome of one HTTP GET: either a response with a status code, a
parsed JSON body and a raw text, or a transport failure (timeout,
connection error), which in Python surfaces as a raised exception. -/
inductive UpstreamOutcome where
  | response : Nat → Json → String → UpstreamOutcome
  | transportFailure : String → UpstreamOutcome

/-- `BASE` from src/app.py line 11. -/
def BASE : String := "https://rickandmortyapi.com/api/"

/-- Body of `api_get` (src/app.py lines 38-45), given the outcome of the
one `requests.get` it performs.  `r.status_code == 200` returns the parsed
body; any other status returns the structured error dict; a transport
failure is an uncaught exception (`Except.error`): the function body has
no try/except. -/
def api_get (outcome : UpstreamOutcome) : Except String Json :=
  match outcome with
  | .response status body text =>
      if status = 200 then Except.ok body
      else Except.ok (Json.obj
        [("error", Json.str ("API Error " ++ toString status ++ ": " ++ text))])
  | .transportFailure msg => Except.error msg

/-- A cache key: the argument signature `(endpoint, params)` that
`st.cache_data` hashes for `api_get`. -/
abbrev CKey := String × List (String × PVal)

/-- One entry of the `st.cache_data` store for `api_get`. -/
structure CEntry where
  key : CKey
  value : Json
  insertedAt : Nat

/-- `ttl=300` from the decorator on src/app.py line 37. -/
def CACHE_TTL : Nat := 300

/-- `max_entries=50` from the decorator on src/app.py line 37. -/
def CACHE_MAX_ENTRIES : Nat := 50

/-- Cache lookup: an entry hits when its key matches and it is younger
than the TTL (an expired entry is treated as absent). -/
def cache_lookup : List CEntry → CKey → Nat → Option Json
  | [], _, _ => none
  | e :: rest, k, now =>
      if e.key = k ∧ now - e.insertedAt < CACHE_TTL then some e.value
      else cache_lookup rest k now

/-- Cache insert: evict the oldest entry when the store is full, then
append the new entry. -/
def cache_insert (entries : List CEntry) (k : CKey) (v : Json) (now : Nat) :
    List CEntry :=
  let pruned := if CACHE_MAX_ENTRIES ≤ entries.length then entries.drop 1 else entries
  pruned ++ [⟨k, v, now⟩]

/-- The `st.cache_data`-wrapped `api_get` (src/app.py line 37): on a cache
hit the cached value is returned and the wrapped function does not run; on
a miss the function runs on the given upstream outcome, a returned value
is stored, and a raised exception propagates without being stored.  The
result is `(result, new cache entries, whether the upstream was
attempted)`. -/
def cached_api_get (entries : List CEntry) (now : Nat) (endpoint : String)
    (params : List (String × PVal)) (outcome : UpstreamOutcome) :
    Except String Json × List CEntry × Bool :=
  match cache_lookup entries (endpoint, params) now with
  | some v => (Except.ok v, entries, false)
  | none =>
      match api_get outcome with
      | Except.ok v =>
          (Except.ok v, cache_insert entries (endpoint, params) v now, true)
      | Except.error e => (Except.error e, entries, true)

/-- `extract_id_from_url` (src/app.py lines 90-96): `re.search` for the
pattern slash, one or more digits, at most one optional trailing slash,
end of string; the digit group on a match, `""` otherwise. -/
def extract_id_from_url (u : String) : String :=
  let cs := u.data
  let cs1 := if cs.getLast? = some '/' then cs.dropLast else cs
  let ds := (cs1.reverse.takeWhile Char.isDigit).reverse
  let pre := cs1.take (cs1.length - ds.length)
  if ds ≠ [] ∧ pre.getLast? = some '/' then String.mk ds else ""

/-- Whether `pat` occurs at the start of `l`. -/
def matchAt : List Char → List Char → Bool
  | [], _ => true
  | _ :: _, [] => false
  | p :: ps, c :: cs => p == c && matchAt ps cs

/-- Whether `pat` occurs anywhere in `l`. -/
def hasSubList (pat : List Char) : List Char → Bool
  | [] => pat.isEmpty
  | c :: cs => matchAt pat (c :: cs) || hasSubList pat cs

/-- Python's substring containment `pat in s`. -/
def hasSubstring (s pat : String) : Bool := hasSubList pat.data s.data

/-- The id list of `fetch_multiple` (src/app.py line 50):
`[extract_id_from_url(u) for u in urls if u]` - falsy (empty) URLs are
skipped, every other URL contributes its extracted id. -/
def fetch_ids (urls : List String) : List String :=
  (urls.filter (fun u => u != "")).map extract_id_from_url

/-- The endpoint dispatch of `fetch_multiple` (src/app.py line 57):
`"character" if "character" in urls[0] else "episode"`.  (`urls[0]` is
only evaluated when the id list is non-empty, hence `urls` is non-empty
there; `headD` is the safe rendering of that access.) -/
def endpoint_of (urls : List String) : String :=
  if hasSubstring (urls.headD "") "character" then "character" else "episode"

/-- The bulk URL of `fetch_multiple` (src/app.py line 59):
`BASE + f"{endpoint}/{','.join(ids_to_fetch)}"` with
`ids_to_fetch = ids[:limit]`. -/
def bulk_url_of (urls : List String) (limit : Nat) : String :=
  BASE ++ endpoint_of urls ++ "/" ++ String.intercalate "," ((fetch_ids urls).take limit)

/-- The response-shape normalization of `fetch_multiple` (src/app.py line
66): `result if isinstance(result, list) else [result]`. -/
def normalize_bulk (body : Json) : List Json :=
  match body with
  | Json.arr xs => xs
  | j => [j]

/-- `fetch_multiple` (src/app.py lines 48-70) over a network oracle `net`.
Returns the value the Python function returns together with the list of
bulk URLs actually requested (empty list = no network call).  An empty id
list returns `[]` before any request; a 200 response is normalized; any
other status falls through to the final `return []`; an exception from
`requests.get` is caught and `[]` is returned. -/
def fetch_multiple (net : String → UpstreamOutcome) (urls : List String)
    (limit : Nat) : List Json × List String :=
  let ids := fetch_ids urls
  if ids = [] then ([], [])
  else
    let u := bulk_url_of urls limit
    match net u with
    | .response 200 body _ => (normalize_bulk body, [u])
    | .response _ _ _ => ([], [u])
    | .transportFailure _ => ([], [u])

/-- The per-session widget and page state of src/app.py: the three page
cursors (lines 19-24) and the filter widget values of the three list
views (lines 258-266, 314-316, 354-356). -/
structure SessionState where
  char_page : Int
  ep_page : Int
  loc_page : Int
  q_name : String
  q_status : String
  q_species : String
  q_gender : String
  ep_name : String
  ep_code : String
  loc_name : String
  loc_type : String

/-- `reset_char_page` (src/app.py lines 108-110). -/
def reset_char_page (s : SessionState) : SessionState := { s with char_page := 1 }

/-- Mutation of the character name filter (src/app.py line 258): the
widget stores the new value and its `on_change=reset_char_page` callback
fires. -/
def set_q_name (v : String) (s : SessionState) : SessionState :=
  reset_char_page { s with q_name := v }

/-- Mutation of the character status filter (src/app.py line 261), with
its `on_change=reset_char_page` callback. -/
def set_q_status (v : String) (s : SessionState) : SessionState :=
  reset_char_page { s with q_status := v }

/-- Mutation of the character species filter (src/app.py line 263), with
its `on_change=reset_char_page` callback. -/
def set_q_species (v : String) (s : SessionState) : SessionState :=
  reset_char_page { s with q_species := v }

/-- Mutation of the character gender filter (src/app.py line 266), with
its `on_change=reset_char_page` callback. -/
def set_q_gender (v : String) (s : SessionState) : SessionState :=
  reset_char_page { s with q_gender := v }

/-- Mutation of the episode name filter (src/app.py line 314): the widget
has no `on_change` callback, so only the value changes. -/
def set_ep_name (v : String) (s : SessionState) : SessionState :=
  { s with ep_name := v }

/-- Mutation of the episode code filter (src/app.py line 316): no
`on_change` callback. -/
def set_ep_code (v : String) (s : SessionState) : SessionState :=
  { s with ep_code := v }

/-- Mutation of the location name filter (src/app.py line 354): no
`on_change` callback. -/
def set_loc_name (v : String) (s : SessionState) : SessionState :=
  { s with loc_name := v }

/-- Mutation of the location type filter (src/app.py line 356): no
`on_change` callback. -/
def set_loc_type (v : String) (s : SessionState) : SessionState :=
  { s with loc_type := v }

/-- The character request params (src/app.py lines 270-274): the page
number always, then each filter only when its value is truthy
(a non-empty string). -/
def char_params (s : SessionState) : List (String × PVal) :=
  ("page", PVal.num s.char_page)
    :: ((if s.q_name ≠ "" then [("name", PVal.str s.q_name)] else [])
      ++ (if s.q_status ≠ "" then [("status", PVal.str s.q_status)] else [])
      ++ (if s.q_species ≠ "" then [("species", PVal.str s.q_species)] else [])
      ++ (if s.q_gender ≠ "" then [("gender", PVal.str s.q_gender)] else []))

/-- The episode request params (src/app.py lines 321-323). -/
def ep_params (s : SessionState) : List (String × PVal) :=
  ("page", PVal.num s.ep_page)
    :: ((if s.ep_name ≠ "" then [("name", PVal.str s.ep_name)] else [])
      ++ (if s.ep_code ≠ "" then [("episode", PVal.str s.ep_code)] else []))

/-- The location request params (src/app.py lines 361-363). -/
def loc_params (s : SessionState) : List (String × PVal) :=
  ("page", PVal.num s.loc_page)
    :: ((if s.loc_name ≠ "" then [("name", PVal.str s.loc_name)] else [])
      ++ (if s.loc_type ≠ "" then [("type", PVal.str s.loc_type)] else []))

/-- Python's `"error" in data` for a dict response. -/
def hasKey (j : Json) (k : String) : Bool :=
  match j with
  | Json.obj kvs => kvs.any (fun kv => kv.1 == k)
  | _ => false

/-- Response handling of `render_character_list` (src/app.py lines
277-304): on an error response with the current page not 1, the page is
set to 1 and `st.rerun()` re-requests; on every other response, including
every successful one, the page cursor is left unchanged and no rerun is
triggered.  Result: `(page after handling, rerun?)`. -/
def char_list_step (page : Int) (data : Json) : Int × Bool :=
  if hasKey data "error" then
    if page ≠ 1 then (1, true) else (page, false)
  else (page, false)

/-- Response handling of `render_episodes` (src/app.py lines 325-344): no
branch writes `ep_page` or calls `st.rerun()`, so the page cursor is
unchanged for every response. -/
def ep_list_step (page : Int) (_data : Json) : Int × Bool := (page, false)

/-- Response handling of `render_locations` (src/app.py lines 365-383):
no branch writes `loc_page` or calls `st.rerun()`. -/
def loc_list_step (page : Int) (_data : Json) : Int × Bool := (page, false)

/-- The Prev button of `pager_controls` (src/app.py lines 121-123):
disabled (no-op) when `current_page <= 1`, otherwise a click sets
`max(1, current_page - 1)` (the total page count plays no role in the
Prev transition). -/
def pager_prev (_total_pages page : Int) : Int :=
  if page ≤ 1 then page else max 1 (page - 1)

/-- The Next button of `pager_controls` (src/app.py lines 130-132):
disabled (no-op) when `current_page >= total_pages`, otherwise a click
sets `min(total_pages, current_page + 1)`. -/
def pager_next (total_pages page : Int) : Int :=
  if total_pages ≤ page then page else min total_pages (page + 1)

/-- One pager interaction. -/
inductive PagerStep where
  | prev : PagerStep
  | next : PagerStep

/-- Apply one pager interaction. -/
def pager_apply (total_pages page : Int) : PagerStep → Int
  | PagerStep.prev => pager_prev total_pages page
  | PagerStep.next => pager_next total_pages page

/-- Run a sequence of pager interactions from a starting page. -/
def pager_run (total_pages : Int) (page : Int) (steps : List PagerStep) : Int :=
  steps.foldl (pager_apply total_pages) page

/-- The C1 scenario response: a successful upstream answer
`{info: {count: 5, pages: 1}, results: [...]}` to the filtered request. -/
def aliveScenarioResponse : Json :=
  Json.obj [("info", Json.obj [("count", Json.num 5), ("pages", Json.num 1)]),
            ("results", Json.arr [Json.obj [("id", Json.num 1), ("name", Json.str "Rick")]])]

/-- The request params of the C3 two-call scenario: page 1 with the
status filter set to alive. -/
def c3Params : List (String × PVal) := [("page", PVal.num 1), ("status", PVal.str "alive")]

/-- First C3 call: empty cache, the upstream answers 404. -/
def c3First : Except String Json × List CEntry × Bool :=
  cached_api_get [] 0 "character" c3Params (UpstreamOutcome.response 404 Json.null "Not Found")

/-- Second C3 call, one time unit later, same signature: the upstream
would now answer 200, but the cache is consulted first. -/
def c3Second : Except String Json × List CEntry × Bool :=
  cached_api_get c3First.2.1 1 "character" c3Params
    (UpstreamOutcome.response 200 (Json.arr []) "")

/-- A session state on page 2 of every view with all filters empty, as
used by the C5 scenario. -/
def c5Start : SessionState := ⟨2, 2, 2, "", "", "", "", "", "", "", ""⟩

/-- A network oracle for the C9 witness: every request is answered 200
with a single bare object (as the upstream does for a one-id bulk
request). -/
def c9Net : String → UpstreamOutcome :=
  fun _ => UpstreamOutcome.response 200 (Json.obj [("id", Json.num 28)]) ""

/-- One pager interaction keeps the page within bounds. -/
lemma pager_apply_bounds (tp p : Int) (h1 : 1 ≤ p) (h2 : p ≤ tp) (s : PagerStep) :
    1 ≤ pager_apply tp p s ∧ pager_apply tp p s ≤ tp := by
  cases s <;> simp only [pager_apply, pager_prev, pager_next] <;> split_ifs <;>
    constructor <;> omega

/-- Any sequence of pager interactions keeps the page within bounds. -/
lemma pager_run_bounds (tp : Int) (steps : List PagerStep) :
    ∀ p, 1 ≤ p → p ≤ tp → 1 ≤ pager_run tp p steps ∧ pager_run tp p steps ≤ tp := by
  induction steps with
  | nil => exact fun p h1 h2 => ⟨h1, h2⟩
  | cons s ss ih =>
      intro p h1 h2
      have h := pager_apply_bounds tp p h1 h2 s
      simpa [pager_run, List.foldl_cons] using ih (pager_apply tp p s) h.1 h.2

/-- Membership of a key in an optionally emitted singleton parameter. -/
lemma mem_map_fst_ite_singleton (k key : String) (v : PVal) (c : Prop) [Decidable c] :
    (key ∈ (if c then [(k, v)] else []).map Prod.fst) ↔ (c ∧ key = k) := by
  split_ifs with h <;> simp [h]

/-- C1 counterexample: with current page 2 and the successful upstream
response of the scenario (filters status=alive, `info.pages = 1` strictly
below the current page), `render_character_list` leaves the page at 2 and
triggers no re-request - the reset branch runs only for error
responses. -/
theorem C1_counterexample :
    char_list_step 2 aliveScenarioResponse = (2, false) ∧
    (char_list_step 2 aliveScenarioResponse).1 ≠ 1 ∧
    (char_list_step 2 aliveScenarioResponse).2 = false :=
  ⟨rfl, by decide, rfl⟩

/-- C1 (amended): the page reset to 1 with a forced re-request happens
only in the character view and only when the response carries an `error`
key while the current page is not 1; every successful response - even one
whose reported page total is below the current page - leaves the page
unchanged with no re-request, and the episode and location views never
reset a page on any response. -/
theorem C1_amended :
    (∀ page data, hasKey data "error" = true → page ≠ 1 →
       char_list_step page data = (1, true)) ∧
    (∀ page data, hasKey data "error" = false →
       char_list_step page data = (page, false)) ∧
    (∀ page data, ep_list_step page data = (page, false)) ∧
    (∀ page data, loc_list_step page data = (page, false)) := by
  refine ⟨?_, ?_, fun _ _ => rfl, fun _ _ => rfl⟩
  · intro page data h hp
    simp [char_list_step, h, hp]
  · intro page data h
    simp [char_list_step, h]

/-- C1 amended witness: an error response on page 2 resets to 1 and
reruns; the successful scenario response on page 2 changes nothing. -/
theorem C1_amended_witness :
    char_list_step 2 (Json.obj [("error", Json.str "API Error 404: x")]) = (1, true) ∧
    char_list_step 2 aliveScenarioResponse = (2, false) :=
  ⟨C1_amended.1 2 (Json.obj [("error", Json.str "API Error 404: x")]) (by decide) (by decide),
   C1_amended.2.1 2 aliveScenarioResponse (by decide)⟩

/-- C2 counterexample: a transport failure (e.g. a timeout) inside
`api_get` is an uncaught exception - the call does not return a value, so
`api_get` does not convert every upstream outcome into a value. -/
theorem C2_counterexample :
    api_get (UpstreamOutcome.transportFailure "ReadTimeout") = Except.error "ReadTimeout" ∧
    ¬ (∀ o, ∃ v, api_get o = Except.ok v) := by
  refine ⟨rfl, fun h => ?_⟩
  obtain ⟨v, hv⟩ := h (UpstreamOutcome.transportFailure "ReadTimeout")
  exact Except.noConfusion hv

/-- C2 (amended): `api_get` converts every non-2xx HTTP status into the
structured value with the single key `error` holding a string, but a
transport failure propagates out of `api_get` as an exception (only
`fetch_multiple` wraps its own request in a try/except). -/
theorem C2_amended :
    (∀ s b t, s ≠ 200 →
       api_get (UpstreamOutcome.response s b t) =
         Except.ok (Json.obj
           [("error", Json.str ("API Error " ++ toString s ++ ": " ++ t))])) ∧
    (∀ m, api_get (UpstreamOutcome.transportFailure m) = Except.error m) := by
  refine ⟨fun s b t h => ?_, fun m => rfl⟩
  simp [api_get, h]

/-- C2 amended witness: a 404 yields the structured error value, a
timeout yields a propagating exception. -/
theorem C2_amended_witness :
    api_get (UpstreamOutcome.response 404 Json.null "Not Found") =
      Except.ok (Json.obj [("error", Json.str "API Error 404: Not Found")]) ∧
    api_get (UpstreamOutcome.transportFailure "timeout") = Except.error "timeout" :=
  ⟨C2_amended.1 404 Json.null "Not Found" (by decide), C2_amended.2 "timeout"⟩

/-- C3 counterexample: the first fetch fails upstream with a 404, yet its
structured error value is a normal return value and `st.cache_data`
stores it; the second fetch for the same signature one time unit later
does not attempt the upstream (which would now succeed) and returns the
cached failure value. -/
theorem C3_counterexample :
    c3First.2.2 = true ∧
    c3Second.2.2 = false ∧
    c3Second.1 = Except.ok (Json.obj [("error", Json.str "API Error 404: Not Found")]) :=
  ⟨rfl, rfl, rfl⟩

/-- C3 (amended): only upstream failures that raise (transport failures)
are kept out of the cache - after such a failure the store is unchanged
and the upstream was attempted; a failed call that returns the structured
error value is cached like any other return value, so a second fetch for
the same signature within the TTL returns the cached failure without
attempting the upstream again. -/
theorem C3_amended :
    (∀ entries now ep p m,
       cache_lookup entries (ep, p) now = none →
       (cached_api_get entries now ep p (UpstreamOutcome.transportFailure m)).2.1 = entries ∧
       (cached_api_get entries now ep p (UpstreamOutcome.transportFailure m)).2.2 = true) ∧
    (∀ now now' ep p s b t o2, s ≠ 200 → now' - now < CACHE_TTL →
       (cached_api_get (cached_api_get [] now ep p (UpstreamOutcome.response s b t)).2.1
          now' ep p o2).2.2 = false ∧
       (cached_api_get (cached_api_get [] now ep p (UpstreamOutcome.response s b t)).2.1
          now' ep p o2).1 =
         (cached_api_get [] now ep p (UpstreamOutcome.response s b t)).1) := by
  constructor
  · intro entries now ep p m h
    simp [cached_api_get, h, api_get]
  · intro now now' ep p s b t o2 hs ht
    have h1 : cached_api_get [] now ep p (UpstreamOutcome.response s b t) =
        (Except.ok (Json.obj
            [("error", Json.str ("API Error " ++ toString s ++ ": " ++ t))]),
         [⟨(ep, p),
           Json.obj [("error", Json.str ("API Error " ++ toString s ++ ": " ++ t))],
           now⟩], true) := by
      simp [cached_api_get, cache_lookup, api_get, hs, cache_insert, CACHE_MAX_ENTRIES]
    rw [h1]
    simp [cached_api_get, cache_lookup, ht]

/-- C3 amended witness: a transport failure leaves the cache empty and is
retried; a 500 response is cached and served from the cache one time unit
later without an upstream attempt. -/
theorem C3_amended_witness :
    (cached_api_get [] 0 "character" [] (UpstreamOutcome.transportFailure "timeout")).2.1 = [] ∧
    (cached_api_get [] 0 "character" [] (UpstreamOutcome.transportFailure "timeout")).2.2 = true ∧
    (cached_api_get (cached_api_get [] 0 "episode" [] (UpstreamOutcome.response 500 Json.null "boom")).2.1
       1 "episode" [] (UpstreamOutcome.response 200 Json.null "")).2.2 = false :=
  ⟨(C3_amended.1 [] 0 "character" [] "timeout" rfl).1,
   (C3_amended.1 [] 0 "character" [] "timeout" rfl).2,
   (C3_amended.2 0 1 "episode" [] 500 Json.null "boom"
      (UpstreamOutcome.response 200 Json.null "") (by decide) (by decide)).1⟩

/-- C4 counterexample: with the reference URLs of the scenario, the
malformed URL ".../episode/" is not excluded - it contributes the empty
identifier to the id list and the bulk URL is built with a dangling
comma, so the batch request does not contain only non-empty
identifiers. -/
theorem C4_counterexample :
    fetch_ids ["https://rickandmortyapi.com/api/episode/28",
               "https://rickandmortyapi.com/api/episode/"] = ["28", ""] ∧
    "" ∈ (fetch_ids ["https://rickandmortyapi.com/api/episode/28",
                     "https://rickandmortyapi.com/api/episode/"]).take 8 ∧
    bulk_url_of ["https://rickandmortyapi.com/api/episode/28",
                 "https://rickandmortyapi.com/api/episode/"] 8 =
      "https://rickandmortyapi.com/api/episode/28," :=
  ⟨by decide, by decide, by decide⟩

/-- C4 (amended): only falsy (empty-string) reference URLs are excluded
before parsing; every non-empty URL contributes its extracted identifier
to the batch, and for a malformed non-empty URL that identifier is the
empty string, which is kept (".../episode/28" contributes "28",
".../episode/" contributes ""). -/
theorem C4_amended :
    (∀ urls, fetch_ids ("" :: urls) = fetch_ids urls) ∧
    (∀ u urls, u ≠ "" →
       fetch_ids (u :: urls) = extract_id_from_url u :: fetch_ids urls) ∧
    extract_id_from_url "https://rickandmortyapi.com/api/episode/28" = "28" ∧
    extract_id_from_url "https://rickandmortyapi.com/api/episode/" = "" := by
  refine ⟨fun urls => rfl, fun u urls h => ?_, by decide, by decide⟩
  simp [fetch_ids, List.filter_cons, h]

/-- C4 amended witness: the malformed scenario URL is kept in the id
list, contributing the empty identifier. -/
theorem C4_amended_witness :
    fetch_ids ["https://rickandmortyapi.com/api/episode/", "x/7"] =
      extract_id_from_url "https://rickandmortyapi.com/api/episode/" :: fetch_ids ["x/7"] :=
  C4_amended.2.1 "https://rickandmortyapi.com/api/episode/" ["x/7"] (by decide)

/-- C5 counterexample: mutating the episode name filter while the episode
view sits on page 2 leaves the page cursor at 2 (the widget has no reset
callback), so the next request is built with the old page number 2 and
the new filter value. -/
theorem C5_counterexample :
    ep_params (set_ep_name "Pilot" c5Start) =
      [("page", PVal.num 2), ("name", PVal.str "Pilot")] ∧
    (set_ep_name "Pilot" c5Start).ep_page = 2 ∧
    (set_ep_name "Pilot" c5Start).ep_page ≠ 1 :=
  ⟨rfl, rfl, by decide⟩

/-- C5 (amended): every character-view filter mutation (name, status,
species, gender) resets the character page cursor to 1 before the next
request is built, but episode and location filter mutations leave their
view page cursor unchanged, so those views can request an old page
number with a new filter value. -/
theorem C5_amended :
    (∀ v s, (set_q_name v s).char_page = 1) ∧
    (∀ v s, (set_q_status v s).char_page = 1) ∧
    (∀ v s, (set_q_species v s).char_page = 1) ∧
    (∀ v s, (set_q_gender v s).char_page = 1) ∧
    (∀ v s, (set_q_name v s).q_name = v) ∧
    (∀ v s, (set_ep_name v s).ep_page = s.ep_page ∧ (set_ep_name v s).ep_name = v) ∧
    (∀ v s, (set_ep_code v s).ep_page = s.ep_page) ∧
    (∀ v s, (set_loc_name v s).loc_page = s.loc_page) ∧
    (∀ v s, (set_loc_type v s).loc_page = s.loc_page) :=
  ⟨fun _ _ => rfl, fun _ _ => rfl, fun _ _ => rfl, fun _ _ => rfl, fun _ _ => rfl,
   fun _ _ => ⟨rfl, rfl⟩, fun _ _ => rfl, fun _ _ => rfl, fun _ _ => rfl⟩

/-- C6 counterexample: the batch resolver recognizes only the character
kind; for a homogeneous list of location reference URLs the extracted id
list is non-empty yet the bulk request is issued against the episode
endpoint, not the location endpoint. -/
theorem C6_counterexample :
    endpoint_of ["https://rickandmortyapi.com/api/location/3"] = "episode" ∧
    ("episode" : String) ≠ "location" ∧
    fetch_ids ["https://rickandmortyapi.com/api/location/3"] = ["3"] ∧
    bulk_url_of ["https://rickandmortyapi.com/api/location/3"] 8 =
      "https://rickandmortyapi.com/api/episode/3" :=
  ⟨by decide, by decide, by decide, by decide⟩

/-- C6 (amended): the endpoint is chosen from the first URL by a
substring test for "character" alone: a first URL containing "character"
sends the bulk request to the character endpoint, any other first URL -
including a location URL - sends it to the episode endpoint. -/
theorem C6_amended :
    (∀ u rest, hasSubstring u "character" = true →
       endpoint_of (u :: rest) = "character") ∧
    (∀ u rest, hasSubstring u "character" = false →
       endpoint_of (u :: rest) = "episode") ∧
    endpoint_of ["https://rickandmortyapi.com/api/location/3"] = "episode" := by
  refine ⟨fun u rest h => ?_, fun u rest h => ?_, by decide⟩ <;>
    simp [endpoint_of, List.headD, h]

/-- C6 amended witness: a character first URL dispatches to the character
endpoint, an episode first URL to the episode endpoint. -/
theorem C6_amended_witness :
    endpoint_of ["https://rickandmortyapi.com/api/character/1"] = "character" ∧
    endpoint_of ["https://rickandmortyapi.com/api/episode/28"] = "episode" :=
  ⟨C6_amended.1 "https://rickandmortyapi.com/api/character/1" [] (by decide),
   C6_amended.2.1 "https://rickandmortyapi.com/api/episode/28" [] (by decide)⟩

/-- C7: for a pager whose current page N satisfies 1 <= N <= totalPages,
the Prev click computes max(1, N-1) and is a no-op at N = 1 (where the
button is disabled), the Next click computes min(totalPages, N+1) and is
a no-op at N = totalPages (where the button is disabled), and every
sequence of Prev/Next interactions keeps the page within
[1, totalPages]. -/
theorem C7_pager_spec (tp N : Int) (h1 : 1 ≤ N) (h2 : N ≤ tp) :
    pager_prev tp N = max 1 (N - 1) ∧
    pager_prev tp 1 = 1 ∧
    pager_next tp N = min tp (N + 1) ∧
    pager_next tp tp = tp ∧
    ∀ steps, 1 ≤ pager_run tp N steps ∧ pager_run tp N steps ≤ tp := by
  refine ⟨?_, ?_, ?_, ?_, fun steps => pager_run_bounds tp steps N h1 h2⟩
  · unfold pager_prev
    split_ifs with h <;> omega
  · unfold pager_prev
    simp
  · unfold pager_next
    split_ifs with h <;> omega
  · unfold pager_next
    simp

/-- C7 witness: the pager laws at totalPages 5, current page 3, and the
bounds after the interaction sequence next, next, next, prev. -/
theorem C7_pager_spec_witness :
    pager_prev 5 3 = max 1 (3 - 1) ∧
    pager_next 5 3 = min 5 (3 + 1) ∧
    1 ≤ pager_run 5 3 [PagerStep.next, PagerStep.next, PagerStep.next, PagerStep.prev] ∧
    pager_run 5 3 [PagerStep.next, PagerStep.next, PagerStep.next, PagerStep.prev] ≤ 5 :=
  ⟨(C7_pager_spec 5 3 (by decide) (by decide)).1,
   (C7_pager_spec 5 3 (by decide) (by decide)).2.2.1,
   ((C7_pager_spec 5 3 (by decide) (by decide)).2.2.2.2
      [PagerStep.next, PagerStep.next, PagerStep.next, PagerStep.prev]).1,
   ((C7_pager_spec 5 3 (by decide) (by decide)).2.2.2.2
      [PagerStep.next, PagerStep.next, PagerStep.next, PagerStep.prev]).2⟩

/-- C8: the batch resolver truncates the extracted id list to at most
`limit` identifiers before building the bulk request; an empty URL list,
and more generally any URL list whose extracted id list is empty, returns
the empty result with no network request performed. -/
theorem C8_batch_truncation :
    (∀ urls limit, ((fetch_ids urls).take limit).length ≤ limit) ∧
    (∀ net limit, fetch_multiple net [] limit = ([], [])) ∧
    (∀ net urls limit, fetch_ids urls = [] →
       fetch_multiple net urls limit = ([], [])) := by
  refine ⟨fun urls limit => ?_, fun net limit => rfl, fun net urls limit h => ?_⟩
  · simp [List.length_take]
  · simp [fetch_multiple, h]

/-- C8 witness: three URLs truncated to two ids, and no request for the
empty URL list or for a URL list with no extracted ids. -/
theorem C8_batch_truncation_witness :
    ((fetch_ids ["a/1", "a/2", "a/3"]).take 2).length ≤ 2 ∧
    fetch_multiple (fun _ => UpstreamOutcome.transportFailure "down") [] 8 = ([], []) ∧
    fetch_multiple (fun _ => UpstreamOutcome.transportFailure "down") [""] 8 = ([], []) :=
  ⟨C8_batch_truncation.1 ["a/1", "a/2", "a/3"] 2,
   C8_batch_truncation.2.1 (fun _ => UpstreamOutcome.transportFailure "down") 8,
   C8_batch_truncation.2.2 (fun _ => UpstreamOutcome.transportFailure "down") [""] 8 (by decide)⟩

/-- C9: a successful bulk response that is a list is returned as-is, a
successful bulk response that is a single bare value is normalized to the
one-element sequence holding it, and `fetch_multiple` returns exactly the
normalization of any 200 response body. -/
theorem C9_normalization :
    (∀ xs, normalize_bulk (Json.arr xs) = xs) ∧
    (∀ j, (∀ xs, j ≠ Json.arr xs) →
       normalize_bulk j = [j] ∧ (normalize_bulk j).length = 1) ∧
    (∀ net urls limit body t,
       fetch_ids urls ≠ [] →
       net (bulk_url_of urls limit) = UpstreamOutcome.response 200 body t →
       (fetch_multiple net urls limit).1 = normalize_bulk body) := by
  refine ⟨fun xs => rfl, fun j h => ?_, fun net urls limit body t h1 h2 => ?_⟩
  · cases j <;> first | exact ⟨rfl, rfl⟩ | exact absurd rfl (h _)
  · simp [fetch_multiple, h1, h2]

/-- C9 witness: a bare object returned for the single-id bulk request of
the scenario is normalized to a one-element sequence. -/
theorem C9_normalization_witness :
    normalize_bulk (Json.obj [("id", Json.num 28)]) = [Json.obj [("id", Json.num 28)]] ∧
    (fetch_multiple c9Net ["https://rickandmortyapi.com/api/episode/28"] 8).1 =
      normalize_bulk (Json.obj [("id", Json.num 28)]) :=
  ⟨(C9_normalization.2.1 (Json.obj [("id", Json.num 28)])
      (fun xs h => Json.noConfusion h)).1,
   C9_normalization.2.2 c9Net ["https://rickandmortyapi.com/api/episode/28"] 8
     (Json.obj [("id", Json.num 28)]) "" (by decide) rfl⟩

/-- C10: in each of the three views the built request params always carry
the page number, and they carry a filter key exactly when that filter
value is a non-empty string (an empty value contributes no parameter). -/
theorem C10_query_builder (s : SessionState) :
    ("page", PVal.num s.char_page) ∈ char_params s ∧
    (("name" ∈ (char_params s).map Prod.fst) ↔ s.q_name ≠ "") ∧
    (("status" ∈ (char_params s).map Prod.fst) ↔ s.q_status ≠ "") ∧
    (("species" ∈ (char_params s).map Prod.fst) ↔ s.q_species ≠ "") ∧
    (("gender" ∈ (char_params s).map Prod.fst) ↔ s.q_gender ≠ "") ∧
    ("page", PVal.num s.ep_page) ∈ ep_params s ∧
    (("name" ∈ (ep_params s).map Prod.fst) ↔ s.ep_name ≠ "") ∧
    (("episode" ∈ (ep_params s).map Prod.fst) ↔ s.ep_code ≠ "") ∧
    ("page", PVal.num s.loc_page) ∈ loc_params s ∧
    (("name" ∈ (loc_params s).map Prod.fst) ↔ s.loc_name ≠ "") ∧
    (("type" ∈ (loc_params s).map Prod.fst) ↔ s.loc_type ≠ "") := by
  refine ⟨?_, ?_, ?_, ?_, ?_, ?_, ?_, ?_, ?_, ?_, ?_⟩ <;>
    simp +decide [char_params, ep_params, loc_params, mem_map_fst_ite_singleton]
